import Mathlib

/-!
Verification of the MessageBoard LED-matrix animation engine
(`MessageBoard.ino`): shallow embedding of the frame buffer, glyph
rendering, text layout and the animation state machine, together with
proofs about rotation, scrolling completion and the engine's start/reset
behaviour.

Modelling conventions:
* `byte` cells of the frame buffer are `Nat` values; well-formedness
  (`BufferWf`) states every cell is `< 256`.  Operations that would
  truncate in C (left shift on a byte) carry an explicit `% 256`.
* AVR integer widths: `int`/`unsigned int` are 16-bit, `long`/`unsigned
  long` are 32-bit.  `millis()` values are reduced `% 2^32`; mixed
  signed/unsigned comparisons are performed after conversion to the
  unsigned type, mirrored by `toU16`; `i16ofU16` converts an unsigned
  16-bit value back to a signed `int`.
* C in-place row loops read neighbour cells that the loop has not yet
  overwritten (plus a saved temporary for the wrapped cell), so they are
  embedded as pointwise functional updates reading the original row.
* The header `font8x5.h` is not part of the repository sources.
  Modelled from the spec: `FONT_PITCH = 5` and the glyph table is an
  abstract `Font` (first/last code plus a column-byte table); the claims
  proved here do not depend on the glyph bit patterns.
* Inside definitions the geometry constants appear as the literals they
  expand to (`MATRIX_ROWS = 8`, `MATRIX_COLUMNS = 120`,
  `MATRIX_NUM_ZONES = 15`, `MATRIX_MAX_ZONE_INDEX = 14`,
  `MATRIX_MAX_CHRS = 24`, `FONT_PITCH = 5`).
-/

namespace MessageBoard

-- ======== General definitions (from MessageBoard.ino) ========

abbrev MATRIX_ROWS : Nat := 8
abbrev MATRIX_COLUMNS : Nat := 120
abbrev MATRIX_NUM_ZONES : Nat := MATRIX_COLUMNS / 8
abbrev MATRIX_MAX_ZONE_INDEX : Nat := MATRIX_NUM_ZONES - 1

/-- FONT_PITCH. Modelled from the spec: defined in the missing header
font8x5.h; the spec fixes it to 5 columns per character. -/
abbrev FONT_PITCH : Nat := 5

abbrev MATRIX_MAX_CHRS : Nat := MATRIX_COLUMNS / FONT_PITCH

abbrev DT_ALIGN_LEFT : Int := 0x00
abbrev DT_ALIGN_CENTER : Int := 0x01
abbrev DT_ALIGN_RIGHT : Int := 0x02

abbrev DT_STYLE_NORMAL : Int := 0x00
abbrev DT_STYLE_INVERSE : Int := 0x01

abbrev DIRECTION_LEFT : Int := 0x00
abbrev DIRECTION_RIGHT : Int := 0x01
abbrev DIRECTION_UP : Int := 0x02
abbrev DIRECTION_DOWN : Int := 0x03

abbrev DEF_ANIM_RTN : Nat := 0
abbrev DEF_ANIM_SPEED : Nat := 5
abbrev DEF_PAUSE_INTERVAL : Nat := 20

-- ======== Machine-integer helpers ========

/-- C string length: number of characters before the terminating NUL. -/
def strlen (msg : List Int) : Nat := (msg.takeWhile (fun c => c != 0)).length

/-- Arduino bitRead macro on a byte value. -/
def bitRead (x n : Nat) : Nat := (x >>> n) &&& 1

/-- Arduino bitWrite macro on a byte lvalue (the clearing mask is the
bitwise complement truncated to byte width). -/
def bitWrite (x n v : Nat) : Nat :=
  if v ≠ 0 then x ||| (1 <<< n) else x &&& (255 ^^^ (1 <<< n))

/-- 32-bit wraparound subtraction of unsigned long millisecond values. -/
def sub32 (a b : Nat) : Nat :=
  ((a % 4294967296) + 4294967296 - (b % 4294967296)) % 4294967296

/-- Conversion of a signed value to unsigned int (16-bit). -/
def toU16 (i : Int) : Nat := (i % 65536).toNat

/-- Conversion of a signed value to a byte. -/
def toU8 (i : Int) : Nat := (i % 256).toNat

/-- Reinterpret an unsigned 16-bit value as a signed int (16-bit). -/
def i16ofU16 (u : Nat) : Int :=
  if u % 65536 < 32768 then ((u % 65536 : Nat) : Int)
  else ((u % 65536 : Nat) : Int) - 65536

/-- Character fetched from the message text at a (nonnegative) index. -/
def chrAt (msg : List Int) (i : Int) : Int := msg.getD i.toNat 0

-- ======== Frame buffer ========

/-- The matrix frame buffer: one byte ("zone") covers eight columns of a
row; bit `b` of zone `z` in a row is the pixel of column `8*z + b`. -/
abbrev Buffer := Fin 8 → Fin 15 → Nat

/-- Every cell of the buffer holds a byte value. -/
def BufferWf (buf : Buffer) : Prop := ∀ r z, buf r z < 256

instance (buf : Buffer) : Decidable (BufferWf buf) :=
  inferInstanceAs (Decidable (∀ r z, buf r z < 256))

/-- matrix_draw_pixel: converts column/row to the buffer bit and turns it
on/off; out-of-range coordinates are ignored. -/
def matrix_draw_pixel (column row value : Int) (buf : Buffer) : Buffer :=
  if column < 0 ∨ column > 120 - 1 ∨ row < 0 ∨ row > 8 - 1 then buf
  else
    fun r z =>
      if r.val = row.toNat ∧ z.val = (column / 8).toNat then
        (if value ≠ 0 then buf r z ||| (1 <<< (column % 8).toNat)
         else buf r z &&& (255 ^^^ (1 <<< (column % 8).toNat)))
      else buf r z

/-- matrix_fill_buffer: sets every byte of the buffer to `value`. -/
def matrix_fill_buffer (value : Nat) : Buffer := fun _ _ => value

/-- matrix_rotate_buffer: rotates the entire buffer left or right with
wrap-around.  The C loop walks zones in the direction that reads each
neighbour before overwriting it and keeps the wrapped-around cell in a
temporary, so each new cell is a function of the original row. -/
def matrix_rotate_buffer (roll_dir : Int) (buf : Buffer) : Buffer :=
  if roll_dir = DIRECTION_LEFT then
    fun row zone =>
      bitWrite (buf row zone >>> 1) 7
        (bitRead (buf row ⟨(zone.val + 1) % 15, by omega⟩) 0)
  else if roll_dir = DIRECTION_RIGHT then
    fun row zone =>
      bitWrite ((buf row zone <<< 1) % 256) 0
        (bitRead (buf row ⟨(zone.val + 14) % 15, by omega⟩) 7)
  else buf

/-- matrix_shift_buffer: shifts the buffer left/right/up/down, zero-filling
at the vacated edge (same loop-order remark as for rotate). -/
def matrix_shift_buffer (shift_dir : Int) (buf : Buffer) : Buffer :=
  if shift_dir = DIRECTION_LEFT then
    fun row zone =>
      if h : zone.val < 14 then
        bitWrite (buf row zone >>> 1) 7 (bitRead (buf row ⟨zone.val + 1, by omega⟩) 0)
      else buf row zone >>> 1
  else if shift_dir = DIRECTION_RIGHT then
    fun row zone =>
      if h : 0 < zone.val then
        bitWrite ((buf row zone <<< 1) % 256) 0 (bitRead (buf row ⟨zone.val - 1, by omega⟩) 7)
      else (buf row zone <<< 1) % 256
  else if shift_dir = DIRECTION_UP then
    fun row zone =>
      if h : row.val < 7 then buf ⟨row.val + 1, by omega⟩ zone else 0x00
  else if shift_dir = DIRECTION_DOWN then
    fun row zone =>
      if h : 0 < row.val then buf ⟨row.val - 1, by omega⟩ zone else 0x00
  else buf

-- ======== Font and glyph rendering ========

/-- The font table interface of the missing header font8x5.h.  Modelled
from the spec: a contiguous printable range `[firstChr, lastChr]` and a
table mapping glyph index and column to a column byte. -/
structure Font where
  firstChr : Int
  lastChr : Int
  data : Nat → Nat → Nat

/-- matrix_draw_chr: draws one character (normal or inverted) by painting
`FONT_PITCH` columns of 8 pixels through matrix_draw_pixel. -/
def matrix_draw_chr (font : Font) (column : Int) (c : Int) (inv : Bool) (buf : Buffer) : Buffer :=
  let c1 := if c < font.firstChr ∨ c > font.lastChr then 0x7F else c
  let c2 := c1 - 0x1D
  (List.range 5).foldl (fun b (col : Nat) =>
    (List.range 8).foldl (fun b2 (row : Nat) =>
      let d := bitRead (font.data (toU8 c2) col) row
      let d2 : Nat := if inv then (if d = 0 then 1 else 0) else d
      matrix_draw_pixel ((col : Int) + column) (row : Int) (d2 : Int) b2) b) buf

/-- Start column and start text index computed by the alignment switch at
the head of matrix_draw_text (C integer division truncates toward zero,
hence `Int.tdiv`). -/
def dt_layout (count format : Int) : Int × Int :=
  if format = DT_ALIGN_CENTER then
    if count ≤ 24 then
      ((120 / 2 : Int) - Int.tdiv (count * 5) 2, 0)
    else
      (0, Int.tdiv (count - 24) 2)
  else if format = DT_ALIGN_RIGHT then
    if count ≤ 24 then
      ((120 : Int) - count * 5, 0)
    else
      (0, count - 24)
  else
    (0, 0)

/-- The character loop of matrix_draw_text (fuel counts the at most
`count - start_index` iterations). -/
def dt_loop (font : Font) (text : List Int) (count style : Int) :
    Nat → Int → Int → Buffer → Buffer
  | 0, _, _, buf => buf
  | fuel + 1, i, column, buf =>
    if i < count ∧ column < 120 then
      dt_loop font text count style fuel (i + 1) (column + 5)
        (matrix_draw_chr font column (chrAt text i) (style != 0) buf)
    else buf

/-- matrix_draw_text: aligned text rendering. -/
def matrix_draw_text (font : Font) (text : List Int) (count format style : Int)
    (buf : Buffer) : Buffer :=
  let p := dt_layout count format
  dt_loop font text count style (count - p.2).toNat p.2 p.1 buf

/-- matrix_shiftin_chr: shifts the buffer in the direction of travel and
paints one font column of `c` at the entering edge; a bit index outside
`[0,7]` fails the sanity check and nothing happens. -/
def matrix_shiftin_chr (font : Font) (c : Int) (bit_index shift_dir : Int)
    (buf : Buffer) : Buffer :=
  if bit_index < 0 ∨ bit_index > 7 then buf
  else
    let c1 := if c < font.firstChr ∨ c > font.lastChr then 0x7F else c
    let c2 := c1 - 0x1D
    let b1 := matrix_shift_buffer shift_dir buf
    let column : Int := if shift_dir = DIRECTION_LEFT then 119 else 0
    (List.range 8).foldl (fun b (row : Nat) =>
      matrix_draw_pixel column (row : Int)
        ((bitRead (font.data (toU8 c2) bit_index.toNat) row : Nat) : Int) b) b1

/-- Iterated buffer rotation. -/
def rotateN (roll_dir : Int) : Nat → Buffer → Buffer
  | 0, buf => buf
  | n + 1, buf => matrix_rotate_buffer roll_dir (rotateN roll_dir n buf)

-- ======== Bit-level lemmas about bitRead / bitWrite ========

lemma bitRead_eq_testBit (y k : Nat) : bitRead y k = if y.testBit k then 1 else 0 := by
  unfold bitRead
  rw [Nat.and_one_is_mod, Nat.shiftRight_eq_div_pow, Nat.testBit_to_div_mod]
  rcases Nat.mod_two_eq_zero_or_one (y / 2 ^ k) with h | h <;> simp [h]

lemma decide_bitRead_ne_zero (y k : Nat) : decide (bitRead y k ≠ 0) = y.testBit k := by
  rw [bitRead_eq_testBit]
  cases h : y.testBit k <;> simp

lemma testBit_255 (j : Nat) : (255 : Nat).testBit j = decide (j < 8) := by
  have h := Nat.testBit_two_pow_sub_one 8 j
  norm_num at h
  exact h

lemma testBit_bitWrite_self (x v n : Nat) (hn : n < 8) :
    (bitWrite x n v).testBit n = decide (v ≠ 0) := by
  unfold bitWrite
  by_cases hv : v ≠ 0
  · rw [if_pos hv, Nat.testBit_or, Nat.one_shiftLeft, Nat.testBit_two_pow_self]
    simp [hv]
  · rw [if_neg hv, Nat.testBit_and, Nat.testBit_xor, Nat.one_shiftLeft,
      Nat.testBit_two_pow_self, testBit_255]
    simp [hv, hn]

lemma testBit_bitWrite_other (x v n i : Nat) (hn : n < 8) (hi : i < 8) (hne : i ≠ n) :
    (bitWrite x n v).testBit i = x.testBit i := by
  unfold bitWrite
  by_cases hv : v ≠ 0
  · rw [if_pos hv, Nat.testBit_or, Nat.one_shiftLeft,
      Nat.testBit_two_pow_of_ne (Ne.symm hne)]
    simp
  · rw [if_neg hv, Nat.testBit_and, Nat.testBit_xor, Nat.one_shiftLeft,
      Nat.testBit_two_pow_of_ne (Ne.symm hne), testBit_255]
    simp [hi]

lemma bitWrite_lt_256 (x v n : Nat) (hx : x < 256) (hn : n < 8) : bitWrite x n v < 256 := by
  unfold bitWrite
  split
  · have h1 : x < 2 ^ 8 := by simpa using hx
    have h2 : (1 <<< n) < 2 ^ 8 := by
      rw [Nat.one_shiftLeft]
      exact Nat.pow_lt_pow_right (by norm_num) hn
    have h3 := Nat.or_lt_two_pow h1 h2
    simpa using h3
  · exact lt_of_le_of_lt Nat.and_le_left hx

-- ======== Column-bit view of the buffer and rotation laws ========

/-- The pixel of column `c` in row `r` of the buffer. -/
def colBit (buf : Buffer) (r : Fin 8) (c : Fin 120) : Bool :=
  (buf r ⟨c.val / 8, by have := c.isLt; omega⟩).testBit (c.val % 8)

lemma testBit_buf_congr (buf : Buffer) (r : Fin 8) (a b i j : Nat)
    (ha : a < 15) (hb : b < 15) (hab : a = b) (hij : i = j) :
    (buf r ⟨a, ha⟩).testBit i = (buf r ⟨b, hb⟩).testBit j := by
  subst hab; subst hij; rfl

lemma colBit_eval (buf : Buffer) (r : Fin 8) (z : Fin 15) (i : Nat) (hi : i < 8) :
    colBit buf r ⟨8 * z.val + i, by have := z.isLt; omega⟩ = (buf r z).testBit i := by
  unfold colBit
  have hz := z.isLt
  have h1 : (8 * z.val + i) / 8 = z.val := by omega
  have h2 : (8 * z.val + i) % 8 = i := by omega
  calc (buf r ⟨(8 * z.val + i) / 8, by omega⟩).testBit ((8 * z.val + i) % 8)
      = (buf r ⟨z.val, hz⟩).testBit i := testBit_buf_congr buf r _ _ _ _ _ hz h1 h2
    _ = (buf r z).testBit i := by rfl

lemma buffer_ext_of_colBit (b1 b2 : Buffer) (h1 : BufferWf b1) (h2 : BufferWf b2)
    (h : ∀ r c, colBit b1 r c = colBit b2 r c) : b1 = b2 := by
  funext r z
  apply Nat.eq_of_testBit_eq
  intro i
  by_cases hi : i < 8
  · have hc := h r ⟨8 * z.val + i, by have := z.isLt; omega⟩
    rwa [colBit_eval b1 r z i hi, colBit_eval b2 r z i hi] at hc
  · have hle : (256 : Nat) ≤ 2 ^ i := by
      calc (256 : Nat) = 2 ^ 8 := by norm_num
        _ ≤ 2 ^ i := Nat.pow_le_pow_right (by norm_num) (by omega)
    rw [Nat.testBit_lt_two_pow (lt_of_lt_of_le (h1 r z) hle),
      Nat.testBit_lt_two_pow (lt_of_lt_of_le (h2 r z) hle)]

lemma colBit_rotate_left (buf : Buffer) (r : Fin 8) (c : Fin 120) :
    colBit (matrix_rotate_buffer DIRECTION_LEFT buf) r c =
      colBit buf r ⟨(c.val + 1) % 120, by omega⟩ := by
  have hc := c.isLt
  unfold colBit matrix_rotate_buffer
  rw [if_pos rfl]
  by_cases hk : c.val % 8 = 7
  · rw [hk, testBit_bitWrite_self _ _ _ (by norm_num), decide_bitRead_ne_zero]
    exact testBit_buf_congr buf r _ _ _ _ _ (by (try simp only [Fin.val_mk]); omega)
      (by (try simp only [Fin.val_mk]); omega) (by (try simp only [Fin.val_mk]); omega)
  · rw [testBit_bitWrite_other _ _ _ _ (by norm_num) (by omega) hk,
      Nat.testBit_shiftRight]
    exact testBit_buf_congr buf r _ _ _ _ _ (by (try simp only [Fin.val_mk]); omega)
      (by (try simp only [Fin.val_mk]); omega) (by (try simp only [Fin.val_mk]); omega)

lemma colBit_rotate_right (buf : Buffer) (r : Fin 8) (c : Fin 120) :
    colBit (matrix_rotate_buffer DIRECTION_RIGHT buf) r c =
      colBit buf r ⟨(c.val + 119) % 120, by omega⟩ := by
  have hc := c.isLt
  unfold colBit matrix_rotate_buffer
  rw [if_neg (by decide : ¬((DIRECTION_RIGHT : Int) = DIRECTION_LEFT)), if_pos rfl]
  by_cases hk : c.val % 8 = 0
  · rw [hk, testBit_bitWrite_self _ _ _ (by norm_num), decide_bitRead_ne_zero]
    exact testBit_buf_congr buf r _ _ _ _ _ (by (try simp only [Fin.val_mk]); omega)
      (by (try simp only [Fin.val_mk]); omega) (by (try simp only [Fin.val_mk]); omega)
  · rw [testBit_bitWrite_other _ _ _ _ (by norm_num) (by omega) hk,
      show (256 : Nat) = 2 ^ 8 from by norm_num, Nat.testBit_mod_two_pow,
      Nat.testBit_shiftLeft,
      show decide (c.val % 8 < 8) = true from by simp; omega,
      show decide (1 ≤ c.val % 8) = true from by simp; omega]
    simp only [Bool.true_and]
    exact testBit_buf_congr buf r _ _ _ _ _ (by (try simp only [Fin.val_mk]); omega)
      (by (try simp only [Fin.val_mk]); omega) (by (try simp only [Fin.val_mk]); omega)

lemma rotate_buffer_wf (d : Int) (buf : Buffer) (h : BufferWf buf) :
    BufferWf (matrix_rotate_buffer d buf) := by
  unfold matrix_rotate_buffer
  split
  · intro r z
    apply bitWrite_lt_256 _ _ _ _ (by norm_num)
    have := h r z
    rw [Nat.shiftRight_eq_div_pow]
    omega
  · split
    · intro r z
      exact bitWrite_lt_256 _ _ _ (Nat.mod_lt _ (by norm_num)) (by norm_num)
    · exact h

lemma rotateN_wf (d : Int) (n : Nat) (buf : Buffer) (h : BufferWf buf) :
    BufferWf (rotateN d n buf) := by
  induction n with
  | zero => exact h
  | succ n ih => exact rotate_buffer_wf d _ ih

lemma colBit_congr (buf : Buffer) (r : Fin 8) (a b : Nat)
    (ha : a < 120) (hb : b < 120) (h : a = b) :
    colBit buf r ⟨a, ha⟩ = colBit buf r ⟨b, hb⟩ := by
  subst h; rfl

lemma colBit_rotateN_left (buf : Buffer) (n : Nat) (r : Fin 8) (c : Fin 120) :
    colBit (rotateN DIRECTION_LEFT n buf) r c =
      colBit buf r ⟨(c.val + n) % 120, by omega⟩ := by
  induction n generalizing c with
  | zero =>
    have hc := c.isLt
    calc colBit (rotateN DIRECTION_LEFT 0 buf) r c
        = colBit buf r ⟨c.val, hc⟩ := by rfl
      _ = colBit buf r ⟨(c.val + 0) % 120, by omega⟩ :=
          colBit_congr buf r _ _ hc (by omega) (by omega)
  | succ n ih =>
    show colBit (matrix_rotate_buffer DIRECTION_LEFT (rotateN DIRECTION_LEFT n buf)) r c = _
    rw [colBit_rotate_left, ih ⟨(c.val + 1) % 120, by omega⟩]
    have hc := c.isLt
    exact colBit_congr buf r _ _ (by (try simp only [Fin.val_mk]); omega)
      (by (try simp only [Fin.val_mk]); omega) (by (try simp only [Fin.val_mk]); omega)

lemma colBit_rotateN_right (buf : Buffer) (n : Nat) (r : Fin 8) (c : Fin 120) :
    colBit (rotateN DIRECTION_RIGHT n buf) r c =
      colBit buf r ⟨(c.val + 119 * n) % 120, by omega⟩ := by
  induction n generalizing c with
  | zero =>
    have hc := c.isLt
    calc colBit (rotateN DIRECTION_RIGHT 0 buf) r c
        = colBit buf r ⟨c.val, hc⟩ := by rfl
      _ = colBit buf r ⟨(c.val + 119 * 0) % 120, by omega⟩ :=
          colBit_congr buf r _ _ hc (by omega) (by omega)
  | succ n ih =>
    show colBit (matrix_rotate_buffer DIRECTION_RIGHT (rotateN DIRECTION_RIGHT n buf)) r c = _
    rw [colBit_rotate_right, ih ⟨(c.val + 119) % 120, by omega⟩]
    have hc := c.isLt
    exact colBit_congr buf r _ _ (by (try simp only [Fin.val_mk]); omega)
      (by (try simp only [Fin.val_mk]); omega) (by (try simp only [Fin.val_mk]); omega)

-- ======== Animation engine state ========

/-- The global msg_context struct of MessageBoard.ino.  `msg` models the
text behind msg_ptr; widths follow the AVR ABI (see the header comment). -/
structure MsgContext where
  routine : Nat
  animation_speed : Nat
  anim_prev_millis : Nat
  state : Int
  tmp_1 : Int
  tmp_2 : Int
  msg : List Int
  msg_length : Nat
  interval : Nat
  delay_prev_millis : Nat

/-- The engine-facing globals: msg_context, the frame buffer and the
completion flag fetch_next_msg. -/
structure EngineState where
  ctx : MsgContext
  display_buffer : Buffer
  fetch_next_msg : Bool

/-- The zero-initialised globals with their C initialisers applied
(routine = DEF_ANIM_RTN, speed = DEF_ANIM_SPEED, fetch_next_msg = true). -/
def initState : EngineState :=
  { ctx := { routine := DEF_ANIM_RTN, animation_speed := DEF_ANIM_SPEED, anim_prev_millis := 0, state := 0, tmp_1 := 0, tmp_2 := 0, msg := [], msg_length := 0, interval := 0, delay_prev_millis := 0 },
    display_buffer := matrix_fill_buffer 0x00,
    fetch_next_msg := true }

/-- start_animation: records routine/speed/interval/message, then - only
when the message is non-empty - resets the sub-state counter and the
animation timestamp, arms the pause timer with the current millis value
`now`, and clears fetch_next_msg.  The 16-bit multiplication
`1000 * pause_interval` wraps at 2^16. -/
def start_animation (routine : Int) (animation_speed pause_interval : Nat)
    (msg : List Int) (now : Nat) (s : EngineState) : EngineState :=
  let c0 := { s.ctx with routine := toU16 routine, animation_speed := animation_speed, interval := (1000 * pause_interval) % 65536, msg := msg, msg_length := strlen msg % 65536 }
  if strlen msg % 65536 = 0 then { s with ctx := c0 }
  else
    { s with ctx := { c0 with state := 0, anim_prev_millis := 0, delay_prev_millis := now % 4294967296 }, fetch_next_msg := false }

-- ======== do_animation: per-routine bodies ========

/-- The shared tail of do_animation: when the switch falls through, a
fresh millis() reading is compared against the pause interval and the
completion flag is raised once it elapses. -/
def pause_tail (lm2 : Nat) (s : EngineState) : EngineState :=
  if sub32 lm2 s.ctx.delay_prev_millis > s.ctx.interval then
    { s with fetch_next_msg := true }
  else s

/-- Shared body of cases 0/1 (smooth scrolling; case 0 falls through into
case 1 after its initial clear).  Always returns before the common tail. -/
def scroll_body (font : Font) (lm : Nat) (s : EngineState) : EngineState :=
  if s.ctx.anim_prev_millis = 0 then
    { s with ctx := { s.ctx with tmp_1 := 0, anim_prev_millis := lm } }
  else if sub32 lm s.ctx.anim_prev_millis > (s.ctx.animation_speed * 10 + 15) % 4294967296 then
    let s1 :=
      if toU16 s.ctx.state ≤ (s.ctx.msg_length + 65535) % 65536 then
        let b := matrix_shiftin_chr font (chrAt s.ctx.msg s.ctx.state) s.ctx.tmp_1 DIRECTION_LEFT s.display_buffer
        let s2 := { s with display_buffer := b }
        if s.ctx.tmp_1 + 1 = 5 then
          { s2 with ctx := { s2.ctx with state := s.ctx.state + 1, tmp_1 := 0 } }
        else
          { s2 with ctx := { s2.ctx with tmp_1 := s.ctx.tmp_1 + 1 } }
      else
        let b := matrix_shift_buffer DIRECTION_LEFT s.display_buffer
        let fl := if toU16 s.ctx.state ≥ (s.ctx.msg_length + 120) % 65536 then true else s.fetch_next_msg
        { s with display_buffer := b, fetch_next_msg := fl, ctx := { s.ctx with state := s.ctx.state + 1 } }
    { s1 with ctx := { s1.ctx with anim_prev_millis := lm } }
  else s

/-- Cases 2-4: static text; draws once on the first tick (then bumps the
timestamp by one to block re-initialisation) and falls through to the
pause tail. -/
def anim_static (font : Font) (lm2 : Nat) (s : EngineState) : EngineState :=
  pause_tail lm2 (
    if s.ctx.anim_prev_millis = 0 then
      let s1 := if s.ctx.msg_length < 24 then { s with display_buffer := matrix_fill_buffer 0x00 } else s
      let b := matrix_draw_text font s1.ctx.msg (i16ofU16 s1.ctx.msg_length) (i16ofU16 ((s1.ctx.routine + 65534) % 65536)) DT_STYLE_NORMAL s1.display_buffer
      let s2 := { s1 with display_buffer := b }
      { s2 with ctx := { s2.ctx with anim_prev_millis := (s2.ctx.anim_prev_millis + 1) % 4294967296 } }
    else s)

/-- Cases 5-7: blinking text. -/
def anim_blink (font : Font) (lm lm2 : Nat) (s : EngineState) : EngineState :=
  pause_tail lm2 (
    if s.ctx.anim_prev_millis = 0 then
      let b := matrix_draw_text font s.ctx.msg (i16ofU16 s.ctx.msg_length) (i16ofU16 ((s.ctx.routine + 65531) % 65536)) DT_STYLE_NORMAL s.display_buffer
      let s1 :=
        if s.ctx.state = 0 then { s with display_buffer := matrix_fill_buffer 0x00 }
        else { s with display_buffer := b }
      { s1 with ctx := { s1.ctx with anim_prev_millis := lm } }
    else if sub32 lm s.ctx.anim_prev_millis > (200 + s.ctx.animation_speed * 100) % 4294967296 then
      { s with ctx := { s.ctx with anim_prev_millis := 0, state := if s.ctx.state = 0 then 1 else 0 } }
    else s)

/-- Cases 8-10: inverting text. -/
def anim_invert (font : Font) (lm lm2 : Nat) (s : EngineState) : EngineState :=
  pause_tail lm2 (
    if s.ctx.anim_prev_millis = 0 then
      let s1 := if s.ctx.msg_length < 24 then { s with display_buffer := matrix_fill_buffer (if s.ctx.state = 0 then 0x00 else 0xFF) } else s
      let b := matrix_draw_text font s1.ctx.msg (i16ofU16 s1.ctx.msg_length) (i16ofU16 ((s1.ctx.routine + 65528) % 65536)) (if s.ctx.state = 0 then DT_STYLE_NORMAL else DT_STYLE_INVERSE) s1.display_buffer
      let s2 := { s1 with display_buffer := b }
      { s2 with ctx := { s2.ctx with anim_prev_millis := lm } }
    else if sub32 lm s.ctx.anim_prev_millis > (400 + s.ctx.animation_speed * 100) % 4294967296 then
      { s with ctx := { s.ctx with anim_prev_millis := 0, state := if s.ctx.state = 0 then 1 else 0 } }
    else s)

/-- Cases 11/12: scroll the buffer up/down eight times, then draw centred
text and hold; the shifting branch returns before the pause tail. -/
def anim_vscroll (font : Font) (lm lm2 : Nat) (s : EngineState) : EngineState :=
  if s.ctx.anim_prev_millis = 0 then
    pause_tail lm2 { s with ctx := { s.ctx with tmp_1 := 0, anim_prev_millis := lm } }
  else if s.ctx.state = 0 ∧ sub32 lm s.ctx.anim_prev_millis > (400 + s.ctx.animation_speed * 100) % 4294967296 then
    let s1 :=
      if s.ctx.tmp_1 < 8 then
        let b := matrix_shift_buffer (if s.ctx.routine = 11 then DIRECTION_UP else DIRECTION_DOWN) s.display_buffer
        { s with display_buffer := b, ctx := { s.ctx with tmp_1 := s.ctx.tmp_1 + 1 } }
      else
        let b := matrix_draw_text font s.ctx.msg (i16ofU16 s.ctx.msg_length) DT_ALIGN_CENTER DT_STYLE_NORMAL s.display_buffer
        { s with display_buffer := b, ctx := { s.ctx with state := s.ctx.state + 1 } }
    { s1 with ctx := { s1.ctx with anim_prev_millis := lm } }
  else pause_tail lm2 s

/-- Case 13: coarse (block) scrolling - shifts a whole character in at
once (all FONT_PITCH columns) per qualifying tick. -/
def anim_block (font : Font) (lm lm2 : Nat) (s : EngineState) : EngineState :=
  pause_tail lm2 (
    if s.ctx.anim_prev_millis = 0 then
      { s with display_buffer := matrix_fill_buffer 0x00, ctx := { s.ctx with anim_prev_millis := lm } }
    else if sub32 lm s.ctx.anim_prev_millis > (90 + s.ctx.animation_speed * 100) % 4294967296 then
      let s1 :=
        if toU16 s.ctx.state ≤ (s.ctx.msg_length + 65535) % 65536 ∧ s.ctx.state < (24 : Int) then
          let b := (List.range 5).foldl (fun bb (i : Nat) => matrix_shiftin_chr font (chrAt s.ctx.msg s.ctx.state) (i : Int) DIRECTION_LEFT bb) s.display_buffer
          { s with display_buffer := b, ctx := { s.ctx with state := s.ctx.state + 1 } }
        else s
      { s1 with ctx := { s1.ctx with anim_prev_millis := lm } }
    else s)

/-- Case 14: fast zap (shoot in, pause, shoot out, complete); every branch
returns before the pause tail. -/
def anim_zap (font : Font) (lm : Nat) (s : EngineState) : EngineState :=
  if s.ctx.anim_prev_millis = 0 then
    { s with display_buffer := matrix_fill_buffer 0x00, ctx := { s.ctx with tmp_1 := 0, tmp_2 := 0, anim_prev_millis := lm } }
  else if s.ctx.state = 0 ∧ sub32 lm s.ctx.anim_prev_millis > 1 then
    let s1 :=
      if toU16 s.ctx.tmp_1 ≤ (s.ctx.msg_length + 65535) % 65536 ∧ s.ctx.tmp_1 ≤ (24 : Int) - 1 then
        let b := matrix_shiftin_chr font (chrAt s.ctx.msg s.ctx.tmp_1) s.ctx.tmp_2 DIRECTION_LEFT s.display_buffer
        let s2 := { s with display_buffer := b }
        if s.ctx.tmp_2 + 1 = 5 then
          { s2 with ctx := { s2.ctx with tmp_1 := s.ctx.tmp_1 + 1, tmp_2 := 0 } }
        else
          { s2 with ctx := { s2.ctx with tmp_2 := s.ctx.tmp_2 + 1 } }
      else if s.ctx.tmp_1 < (24 : Int) then
        let s2 := { s with display_buffer := matrix_shift_buffer DIRECTION_LEFT s.display_buffer }
        if s.ctx.tmp_2 + 1 = 5 then
          { s2 with ctx := { s2.ctx with tmp_1 := s.ctx.tmp_1 + 1, tmp_2 := 0 } }
        else
          { s2 with ctx := { s2.ctx with tmp_2 := s.ctx.tmp_2 + 1 } }
      else { s with ctx := { s.ctx with state := s.ctx.state + 1 } }
    { s1 with ctx := { s1.ctx with anim_prev_millis := lm } }
  else if s.ctx.state = 1 ∧ sub32 lm s.ctx.delay_prev_millis > s.ctx.interval then
    { s with ctx := { s.ctx with state := s.ctx.state + 1, tmp_1 := 0, anim_prev_millis := lm } }
  else if s.ctx.state = 2 ∧ sub32 lm s.ctx.anim_prev_millis > 1 then
    let s1 := { s with display_buffer := matrix_shift_buffer DIRECTION_LEFT s.display_buffer, ctx := { s.ctx with tmp_1 := s.ctx.tmp_1 + 1 } }
    let s2 := if s.ctx.tmp_1 + 1 > (120 : Int) then { s1 with ctx := { s1.ctx with state := s1.ctx.state + 1 } } else s1
    { s2 with ctx := { s2.ctx with anim_prev_millis := lm } }
  else if s.ctx.state = 3 then { s with fetch_next_msg := true }
  else s

/-- Case 15: dissolve - 6000 ticks of clearing one random pixel (the
random() draws are the parameters rc/rr), then draw text once. -/
def anim_dissolve (font : Font) (lm2 rc rr : Nat) (s : EngineState) : EngineState :=
  if s.ctx.state < 6000 then
    let b := matrix_draw_pixel ((rc % 120 : Nat) : Int) ((rr % 8 : Nat) : Int) 0 s.display_buffer
    { s with display_buffer := b, ctx := { s.ctx with state := s.ctx.state + 1 } }
  else if s.ctx.state = 6000 then
    let b := matrix_draw_text font s.ctx.msg (i16ofU16 s.ctx.msg_length) DT_ALIGN_LEFT DT_STYLE_NORMAL (matrix_fill_buffer 0x00)
    pause_tail lm2 { s with display_buffer := b, ctx := { s.ctx with state := s.ctx.state + 1 } }
  else pause_tail lm2 s

/-- Case 16: sliding characters (the unsigned ternary minus one on
msg_length is reinterpreted as a signed int for tmp_1). -/
def anim_slide (font : Font) (lm lm2 : Nat) (s : EngineState) : EngineState :=
  if s.ctx.anim_prev_millis = 0 then
    let t1 := i16ofU16 (((if s.ctx.msg_length ≥ 24 then 24 else s.ctx.msg_length) + 65535) % 65536)
    { s with display_buffer := matrix_fill_buffer 0x00, ctx := { s.ctx with tmp_1 := t1, tmp_2 := (120 : Int) - 5, anim_prev_millis := lm } }
  else if s.ctx.state ≤ s.ctx.tmp_1 ∧ sub32 lm s.ctx.anim_prev_millis > (20 + s.ctx.animation_speed * 10) % 4294967296 then
    let b1 := matrix_draw_chr font s.ctx.tmp_2 (chrAt s.ctx.msg s.ctx.state) false s.display_buffer
    let b2 := (List.range 5).foldl (fun b (col : Nat) => (List.range 8).foldl (fun bb (row : Nat) => matrix_draw_pixel ((col : Int) + s.ctx.tmp_2 + 5) (row : Int) 0 bb) b) b1
    let s1 := { s with display_buffer := b2 }
    let s2 :=
      if s.ctx.tmp_2 > s.ctx.state * 5 then
        { s1 with ctx := { s1.ctx with tmp_2 := s.ctx.tmp_2 - 5 } }
      else
        { s1 with ctx := { s1.ctx with tmp_2 := (120 : Int) - 5, state := s.ctx.state + 1 } }
    { s2 with ctx := { s2.ctx with anim_prev_millis := lm } }
  else pause_tail lm2 s

/-- Cases 17/18: rolling text; the final `if (state < 2) return` guards
the pause tail. -/
def anim_roll (font : Font) (lm lm2 : Nat) (s : EngineState) : EngineState :=
  let s1 :=
    if s.ctx.anim_prev_millis = 0 then
      let sA := if s.ctx.msg_length < 24 then { s with display_buffer := matrix_fill_buffer 0x00 } else s
      let b := matrix_draw_text font sA.ctx.msg (i16ofU16 sA.ctx.msg_length) DT_ALIGN_CENTER DT_STYLE_NORMAL sA.display_buffer
      { sA with display_buffer := b, ctx := { sA.ctx with tmp_1 := 0, anim_prev_millis := lm } }
    else if s.ctx.state = 0 ∧ sub32 lm s.ctx.anim_prev_millis > 2000 then
      { s with ctx := { s.ctx with state := s.ctx.state + 1, anim_prev_millis := lm } }
    else if s.ctx.state = 1 ∧ sub32 lm s.ctx.anim_prev_millis > 90 then
      let b := matrix_rotate_buffer (if s.ctx.routine = 17 then DIRECTION_LEFT else DIRECTION_RIGHT) s.display_buffer
      let sA := { s with display_buffer := b }
      let sB := if s.ctx.tmp_1 + 1 = (120 : Int) then { sA with ctx := { sA.ctx with state := sA.ctx.state + 1 } } else sA
      { sB with ctx := { sB.ctx with tmp_1 := s.ctx.tmp_1 + 1, anim_prev_millis := lm } }
    else s
  if s1.ctx.state < 2 then s1 else pause_tail lm2 s1

/-- The pac-man sprite frames held in PROGMEM. -/
def pacman : List (List Nat) :=
  [[0x00, 0x3C, 0x7E, 0xFF, 0xFF, 0xFF, 0x7E, 0x3C],
   [0x00, 0x42, 0xE7, 0xFF, 0xFF, 0xFF, 0x7E, 0x3C]]

/-- Case 19: pac-man wipe; on reaching the left edge the buffer is cleared
and the routine becomes 0 (smooth scroll).  Every branch returns before
the pause tail. -/
def anim_pacman (lm : Nat) (s : EngineState) : EngineState :=
  if s.ctx.anim_prev_millis = 0 then
    { s with ctx := { s.ctx with tmp_1 := (120 : Int) - 8, tmp_2 := 1, anim_prev_millis := lm } }
  else if s.ctx.state < 2 ∧ sub32 lm s.ctx.anim_prev_millis > 100 then
    let b1 := (List.range 8).foldl (fun b (col : Nat) => (List.range 8).foldl (fun bb (row : Nat) => matrix_draw_pixel ((col : Int) + s.ctx.tmp_1) (row : Int) ((bitRead ((pacman.getD s.ctx.tmp_2.toNat []).getD col 0) row : Nat) : Int) bb) b) s.display_buffer
    let b2 := (List.range 8).foldl (fun b (col : Nat) => (List.range 8).foldl (fun bb (row : Nat) => matrix_draw_pixel ((col : Int) + s.ctx.tmp_1 + 8) (row : Int) 0 bb) b) b1
    let s1 := { s with display_buffer := b2 }
    let s2 :=
      if s.ctx.tmp_2 = 0 then { s1 with ctx := { s1.ctx with tmp_2 := 1 } }
      else { s1 with ctx := { s1.ctx with tmp_2 := 0, state := s.ctx.state + 1 } }
    { s2 with ctx := { s2.ctx with anim_prev_millis := lm } }
  else if s.ctx.state = 2 ∧ s.ctx.tmp_1 > -8 then
    { s with ctx := { s.ctx with tmp_1 := s.ctx.tmp_1 - 8, state := 0, anim_prev_millis := lm } }
  else if s.ctx.tmp_1 ≤ -8 then
    { s with display_buffer := matrix_fill_buffer 0x00, ctx := { s.ctx with routine := 0 } }
  else s

/-- Case 20: random routine re-dispatch (rt models the random(0,20) draw);
falls through to the pause tail. -/
def anim_random (lm2 rt : Nat) (s : EngineState) : EngineState :=
  pause_tail lm2 (
    if s.ctx.msg_length ≤ 24 then
      { s with ctx := { s.ctx with routine := rt % 20 } }
    else
      { s with ctx := { s.ctx with routine := 0 } })

/-- do_animation: reads millis() once on entry (`l_millis`) and, for the
branches that fall through the switch, once more in the pause-interval
tail (`l_millis2`); `rc`/`rr`/`rt` model the random() draws of cases 15
and 20. -/
def do_animation (font : Font) (l_millis l_millis2 rc rr rt : Nat)
    (s : EngineState) : EngineState :=
  let lm := l_millis % 4294967296
  let lm2 := l_millis2 % 4294967296
  match s.ctx.routine with
  | 0 =>
    let s0 := { s with display_buffer := if s.ctx.anim_prev_millis = 0 then matrix_fill_buffer 0x00 else s.display_buffer }
    scroll_body font lm s0
  | 1 => scroll_body font lm s
  | 2 | 3 | 4 => anim_static font lm2 s
  | 5 | 6 | 7 => anim_blink font lm lm2 s
  | 8 | 9 | 10 => anim_invert font lm lm2 s
  | 11 | 12 => anim_vscroll font lm lm2 s
  | 13 => anim_block font lm lm2 s
  | 14 => anim_zap font lm s
  | 15 => anim_dissolve font lm2 rc rr s
  | 16 => anim_slide font lm lm2 s
  | 17 | 18 => anim_roll font lm lm2 s
  | 19 => anim_pacman lm s
  | 20 => anim_random lm2 rt s
  | _ => { s with fetch_next_msg := true }

/-- Drives do_animation with call k issued at millis value 1000*k + 1
(1000 ms apart, so every smooth-scroll tick qualifies; the offset 1 keeps
the stored timestamp from ever reading 0 again). -/
def runScroll (font : Font) : Nat → EngineState → EngineState
  | 0, s => s
  | n + 1, s => do_animation font (1000 * (n + 1) + 1) (1000 * (n + 1) + 1) 0 0 0 (runScroll font n s)

-- ======== Concrete artifacts used by witnesses ========

/-- A concrete font standing in for the unknown table of font8x5.h. -/
def font0 : Font := ⟨0x1D, 0x7E, fun g col => (g * 31 + col * 7) % 256⟩

/-- A concrete, non-trivial frame-buffer content. -/
def buf0 : Buffer := fun r z => (17 * r.val + 7 * z.val + 3) % 256


-- ======== Engine-level helper lemmas ========

@[simp] lemma ctx_update_buffer (s : EngineState) (b : Buffer) :
    ({ s with display_buffer := b }).ctx = s.ctx := rfl

@[simp] lemma flag_update_buffer (s : EngineState) (b : Buffer) :
    ({ s with display_buffer := b }).fetch_next_msg = s.fetch_next_msg := rfl

lemma toU16_coe (n : Nat) : toU16 (n : Int) = n % 65536 := by
  unfold toU16; omega

lemma start_animation_armed (routine : Int) (speed pause : Nat) (msg : List Int)
    (now : Nat) (s : EngineState) (h : strlen msg % 65536 ≠ 0) :
    start_animation routine speed pause msg now s =
      { ctx := { routine := toU16 routine, animation_speed := speed, anim_prev_millis := 0, state := 0, tmp_1 := s.ctx.tmp_1, tmp_2 := s.ctx.tmp_2, msg := msg, msg_length := strlen msg % 65536, interval := (1000 * pause) % 65536, delay_prev_millis := now % 4294967296 },
        display_buffer := s.display_buffer,
        fetch_next_msg := false } := by
  unfold start_animation
  rw [if_neg h]

lemma start_animation_skip (routine : Int) (speed pause : Nat) (msg : List Int)
    (now : Nat) (s : EngineState) (h : strlen msg % 65536 = 0) :
    start_animation routine speed pause msg now s =
      { ctx := { s.ctx with routine := toU16 routine, animation_speed := speed, interval := (1000 * pause) % 65536, msg := msg, msg_length := strlen msg % 65536 },
        display_buffer := s.display_buffer,
        fetch_next_msg := s.fetch_next_msg } := by
  unfold start_animation
  rw [if_pos h]

lemma do_animation_scroll0 (font : Font) (lm lm2 rc rr rt : Nat) (s : EngineState)
    (h : s.ctx.routine = 0) :
    do_animation font lm lm2 rc rr rt s =
      scroll_body font (lm % 4294967296)
        { s with display_buffer := if s.ctx.anim_prev_millis = 0 then matrix_fill_buffer 0x00 else s.display_buffer } := by
  unfold do_animation
  rw [h]

lemma do_animation_pacman (font : Font) (lm lm2 rc rr rt : Nat) (s : EngineState)
    (h : s.ctx.routine = 19) :
    do_animation font lm lm2 rc rr rt s = anim_pacman (lm % 4294967296) s := by
  unfold do_animation
  rw [h]

lemma scroll_body_init (font : Font) (lm : Nat) (s : EngineState)
    (h0 : s.ctx.anim_prev_millis = 0) :
    scroll_body font lm s =
      { s with ctx := { s.ctx with tmp_1 := 0, anim_prev_millis := lm } } := by
  unfold scroll_body
  rw [if_pos h0]

lemma scroll_body_idle (font : Font) (lm : Nat) (s : EngineState)
    (h0 : s.ctx.anim_prev_millis ≠ 0)
    (hq : ¬(sub32 lm s.ctx.anim_prev_millis > (s.ctx.animation_speed * 10 + 15) % 4294967296)) :
    scroll_body font lm s = s := by
  unfold scroll_body
  rw [if_neg h0, if_neg hq]

lemma scroll_body_shiftin_adv (font : Font) (lm : Nat) (s : EngineState)
    (h0 : s.ctx.anim_prev_millis ≠ 0)
    (hq : sub32 lm s.ctx.anim_prev_millis > (s.ctx.animation_speed * 10 + 15) % 4294967296)
    (hin : toU16 s.ctx.state ≤ (s.ctx.msg_length + 65535) % 65536)
    (h5 : ¬(s.ctx.tmp_1 + 1 = 5)) :
    scroll_body font lm s =
      { s with
        display_buffer := matrix_shiftin_chr font (chrAt s.ctx.msg s.ctx.state) s.ctx.tmp_1 DIRECTION_LEFT s.display_buffer,
        ctx := { s.ctx with tmp_1 := s.ctx.tmp_1 + 1, anim_prev_millis := lm } } := by
  unfold scroll_body
  rw [if_neg h0, if_pos hq, if_pos hin, if_neg h5]

lemma scroll_body_shiftin_next (font : Font) (lm : Nat) (s : EngineState)
    (h0 : s.ctx.anim_prev_millis ≠ 0)
    (hq : sub32 lm s.ctx.anim_prev_millis > (s.ctx.animation_speed * 10 + 15) % 4294967296)
    (hin : toU16 s.ctx.state ≤ (s.ctx.msg_length + 65535) % 65536)
    (h5 : s.ctx.tmp_1 + 1 = 5) :
    scroll_body font lm s =
      { s with
        display_buffer := matrix_shiftin_chr font (chrAt s.ctx.msg s.ctx.state) s.ctx.tmp_1 DIRECTION_LEFT s.display_buffer,
        ctx := { s.ctx with state := s.ctx.state + 1, tmp_1 := 0, anim_prev_millis := lm } } := by
  unfold scroll_body
  rw [if_neg h0, if_pos hq, if_pos hin, if_pos h5]

lemma scroll_body_shiftout (font : Font) (lm : Nat) (s : EngineState)
    (h0 : s.ctx.anim_prev_millis ≠ 0)
    (hq : sub32 lm s.ctx.anim_prev_millis > (s.ctx.animation_speed * 10 + 15) % 4294967296)
    (hin : ¬(toU16 s.ctx.state ≤ (s.ctx.msg_length + 65535) % 65536)) :
    scroll_body font lm s =
      { s with
        display_buffer := matrix_shift_buffer DIRECTION_LEFT s.display_buffer,
        fetch_next_msg := if toU16 s.ctx.state ≥ (s.ctx.msg_length + 120) % 65536 then true else s.fetch_next_msg,
        ctx := { s.ctx with state := s.ctx.state + 1, anim_prev_millis := lm } } := by
  unfold scroll_body
  rw [if_neg h0, if_pos hq, if_neg hin]

/-- One smooth-scroll run: `start_animation` for routine 0, then `m` calls
of `do_animation` on the schedule of `runScroll`. -/
def scroll_exec (font : Font) (speed pause : Nat) (msg : List Int) (now : Nat)
    (s : EngineState) (m : Nat) : EngineState :=
  runScroll font m (start_animation 0 speed pause msg now s)

/-- One qualifying tick of the smooth-scroll run: advances the counter
profile of the invariant from step `m` to step `m + 1`. -/
lemma scroll_step_inv (font : Font) (msg : List Int) (speed : Nat) (L : Nat)
    (h1 : 1 ≤ L) (h2 : L ≤ 32000) (hs : speed ≤ 98) (m : Nat)
    (hm : m + 1 ≤ 5 * L + 121) (T : EngineState)
    (hr : T.ctx.routine = 0)
    (hsp : T.ctx.animation_speed = speed)
    (hlen : T.ctx.msg_length = L)
    (hprev : T.ctx.anim_prev_millis = (1000 * (m + 1) + 1) % 4294967296)
    (hstate : T.ctx.state = (if m < 5 * L then ((m / 5 : Nat) : Int) else ((L + (m - 5 * L) : Nat) : Int)))
    (htmp : T.ctx.tmp_1 = (if m < 5 * L then ((m % 5 : Nat) : Int) else 0))
    (hflag : T.fetch_next_msg = decide (5 * L + 121 ≤ m)) :
    (do_animation font (1000 * (m + 1 + 1) + 1) (1000 * (m + 1 + 1) + 1) 0 0 0 T).ctx.routine = 0 ∧
    (do_animation font (1000 * (m + 1 + 1) + 1) (1000 * (m + 1 + 1) + 1) 0 0 0 T).ctx.animation_speed = speed ∧
    (do_animation font (1000 * (m + 1 + 1) + 1) (1000 * (m + 1 + 1) + 1) 0 0 0 T).ctx.msg_length = L ∧
    (do_animation font (1000 * (m + 1 + 1) + 1) (1000 * (m + 1 + 1) + 1) 0 0 0 T).ctx.anim_prev_millis = (1000 * (m + 1 + 1) + 1) % 4294967296 ∧
    (do_animation font (1000 * (m + 1 + 1) + 1) (1000 * (m + 1 + 1) + 1) 0 0 0 T).ctx.state = (if m + 1 < 5 * L then (((m + 1) / 5 : Nat) : Int) else ((L + (m + 1 - 5 * L) : Nat) : Int)) ∧
    (do_animation font (1000 * (m + 1 + 1) + 1) (1000 * (m + 1 + 1) + 1) 0 0 0 T).ctx.tmp_1 = (if m + 1 < 5 * L then (((m + 1) % 5 : Nat) : Int) else 0) ∧
    (do_animation font (1000 * (m + 1 + 1) + 1) (1000 * (m + 1 + 1) + 1) 0 0 0 T).fetch_next_msg = decide (5 * L + 121 ≤ m + 1) := by
  have hT2 : ({ T with display_buffer := if T.ctx.anim_prev_millis = 0 then matrix_fill_buffer 0x00 else T.display_buffer } : EngineState) = T := by
    rw [if_neg (by rw [hprev]; omega : ¬(T.ctx.anim_prev_millis = 0))]
  rw [do_animation_scroll0 font _ _ 0 0 0 T hr, hT2]
  have hne : T.ctx.anim_prev_millis ≠ 0 := by rw [hprev]; omega
  have key : sub32 ((1000 * (m + 1 + 1) + 1) % 4294967296) ((1000 * (m + 1) + 1) % 4294967296) = 1000 := by
    unfold sub32
    omega
  have hq : sub32 ((1000 * (m + 1 + 1) + 1) % 4294967296) T.ctx.anim_prev_millis >
      (T.ctx.animation_speed * 10 + 15) % 4294967296 := by
    rw [hprev, hsp, key, Nat.mod_eq_of_lt (show speed * 10 + 15 < 4294967296 by omega)]
    omega
  by_cases hphase : m < 5 * L
  · have hinq : toU16 T.ctx.state ≤ (T.ctx.msg_length + 65535) % 65536 := by
      rw [hstate, hlen, if_pos hphase, toU16_coe]
      omega
    by_cases h5 : m % 5 = 4
    · have h5i : T.ctx.tmp_1 + 1 = 5 := by
        rw [htmp, if_pos hphase]
        omega
      rw [scroll_body_shiftin_next font _ T hne hq hinq h5i]
      refine ⟨hr, hsp, hlen, rfl, ?_, ?_, ?_⟩
      · show T.ctx.state + 1 = _
        rw [hstate, if_pos hphase]
        split <;> omega
      · show (0 : Int) = _
        split <;> omega
      · show T.fetch_next_msg = _
        rw [hflag, decide_eq_decide]
        omega
    · have h5i : ¬(T.ctx.tmp_1 + 1 = 5) := by
        rw [htmp, if_pos hphase]
        omega
      rw [scroll_body_shiftin_adv font _ T hne hq hinq h5i]
      refine ⟨hr, hsp, hlen, rfl, ?_, ?_, ?_⟩
      · show T.ctx.state = _
        rw [hstate, if_pos hphase]
        split <;> omega
      · show T.ctx.tmp_1 + 1 = _
        rw [htmp, if_pos hphase]
        split <;> omega
      · show T.fetch_next_msg = _
        rw [hflag, decide_eq_decide]
        omega
  · have hinq : ¬(toU16 T.ctx.state ≤ (T.ctx.msg_length + 65535) % 65536) := by
      rw [hstate, hlen, if_neg hphase, toU16_coe]
      omega
    rw [scroll_body_shiftout font _ T hne hq hinq]
    refine ⟨hr, hsp, hlen, rfl, ?_, ?_, ?_⟩
    · show T.ctx.state + 1 = _
      rw [hstate, if_neg hphase, if_neg (by omega : ¬(m + 1 < 5 * L))]
      omega
    · show T.ctx.tmp_1 = _
      rw [htmp, if_neg hphase, if_neg (by omega : ¬(m + 1 < 5 * L))]
    · show (if toU16 T.ctx.state ≥ (T.ctx.msg_length + 120) % 65536 then true else T.fetch_next_msg) = _
      rw [hstate, hlen, if_neg hphase, toU16_coe, hflag]
      split
      · rename_i hcond
        rw [eq_comm, decide_eq_true_eq]
        omega
      · rename_i hcond
        rw [decide_eq_decide]
        omega

/-- Counter profile of a smooth-scroll run started by start_animation with
routine 0: after the initialisation call plus `m` further calls the
sub-state counters follow the closed forms below, and the completion flag
is raised exactly from step 5L + 121 on. -/
lemma scroll_run_inv (font : Font) (msg : List Int) (speed pause now : Nat)
    (s : EngineState) (L : Nat) (hL : strlen msg = L) (h1 : 1 ≤ L) (h2 : L ≤ 32000)
    (hs : speed ≤ 98) :
    ∀ m : Nat, m ≤ 5 * L + 121 →
      (scroll_exec font speed pause msg now s (m + 1)).ctx.routine = 0 ∧
      (scroll_exec font speed pause msg now s (m + 1)).ctx.animation_speed = speed ∧
      (scroll_exec font speed pause msg now s (m + 1)).ctx.msg_length = L ∧
      (scroll_exec font speed pause msg now s (m + 1)).ctx.anim_prev_millis = (1000 * (m + 1) + 1) % 4294967296 ∧
      (scroll_exec font speed pause msg now s (m + 1)).ctx.state = (if m < 5 * L then ((m / 5 : Nat) : Int) else ((L + (m - 5 * L) : Nat) : Int)) ∧
      (scroll_exec font speed pause msg now s (m + 1)).ctx.tmp_1 = (if m < 5 * L then ((m % 5 : Nat) : Int) else 0) ∧
      (scroll_exec font speed pause msg now s (m + 1)).fetch_next_msg = decide (5 * L + 121 ≤ m) := by
  have hL0 : strlen msg % 65536 ≠ 0 := by omega
  have hL65 : strlen msg % 65536 = L := by omega
  intro m
  induction m with
  | zero =>
    intro _
    rw [show scroll_exec font speed pause msg now s (0 + 1) =
        do_animation font (1000 * (0 + 1) + 1) (1000 * (0 + 1) + 1) 0 0 0
          (start_animation 0 speed pause msg now s) from rfl]
    rw [start_animation_armed 0 speed pause msg now s hL0]
    rw [do_animation_scroll0 font _ _ 0 0 0 _ (by show toU16 0 = 0; decide)]
    rw [scroll_body_init font _ _ (by show (0 : Nat) = 0; rfl)]
    refine ⟨by show toU16 0 = 0; decide, rfl, ?_, rfl, ?_, ?_, ?_⟩
    · show strlen msg % 65536 = L
      exact hL65
    · show (0 : Int) = _
      rw [if_pos (by omega : 0 < 5 * L)]
      norm_num
    · show (0 : Int) = _
      rw [if_pos (by omega : 0 < 5 * L)]
      norm_num
    · show false = _
      rw [eq_comm, decide_eq_false_iff_not]
      omega
  | succ m ih =>
    intro hm
    obtain ⟨hr, hsp, hlen, hprev, hstate, htmp, hflag⟩ := ih (by omega)
    rw [show scroll_exec font speed pause msg now s (m + 1 + 1) =
        do_animation font (1000 * (m + 1 + 1) + 1) (1000 * (m + 1 + 1) + 1) 0 0 0
          (scroll_exec font speed pause msg now s (m + 1)) from rfl]
    exact scroll_step_inv font msg speed L h1 h2 hs m hm
      (scroll_exec font speed pause msg now s (m + 1)) hr hsp hlen hprev hstate htmp hflag

-- ======== Claim theorems ========

/-- Claim C4: for any frame-buffer content (well-formed byte cells) and
any number of repetitions n with 1 <= n <= COLUMNS, applying
matrix_rotate_buffer(DIRECTION_LEFT) n times followed by
matrix_rotate_buffer(DIRECTION_RIGHT) n times restores the exact original
bit pattern of every row. -/
theorem rotate_round_trip (buf : Buffer) (n : Nat) (hw : BufferWf buf)
    (hn1 : 1 ≤ n) (hn2 : n ≤ MATRIX_COLUMNS) :
    rotateN DIRECTION_RIGHT n (rotateN DIRECTION_LEFT n buf) = buf := by
  apply buffer_ext_of_colBit _ _ (rotateN_wf _ _ _ (rotateN_wf _ _ _ hw)) hw
  intro r c
  rw [colBit_rotateN_right, colBit_rotateN_left]
  have hc := c.isLt
  exact colBit_congr buf r _ _ _ c.isLt (by (try simp only [Fin.val_mk]); omega)

/-- Witness for C4: the round trip for n = 2 on the concrete buffer buf0. -/
theorem rotate_round_trip_w :
    rotateN DIRECTION_RIGHT 2 (rotateN DIRECTION_LEFT 2 buf0) = buf0 :=
  rotate_round_trip buf0 2 (by decide) (by decide) (by decide)

/-- Claim C5: for any frame-buffer content (well-formed byte cells),
applying matrix_rotate_buffer(DIRECTION_LEFT) exactly COLUMNS = 120 times
returns the buffer to its exact original state. -/
theorem rotate_full_period (buf : Buffer) (hw : BufferWf buf) :
    rotateN DIRECTION_LEFT MATRIX_COLUMNS buf = buf := by
  show rotateN DIRECTION_LEFT 120 buf = buf
  apply buffer_ext_of_colBit _ _ (rotateN_wf _ _ _ hw) hw
  intro r c
  rw [colBit_rotateN_left]
  have hc := c.isLt
  exact colBit_congr buf r _ _ _ c.isLt (by (try simp only [Fin.val_mk]); omega)

/-- Witness for C5: the full period on the concrete buffer buf0. -/
theorem rotate_full_period_w : rotateN DIRECTION_LEFT MATRIX_COLUMNS buf0 = buf0 :=
  rotate_full_period buf0 (by decide)

/-- Claim C10: matrix_rotate_buffer with any direction other than
DIRECTION_LEFT or DIRECTION_RIGHT (in particular DIRECTION_UP and
DIRECTION_DOWN) leaves every byte of the buffer unchanged. -/
theorem rotate_unknown_direction_noop (roll_dir : Int) (buf : Buffer)
    (h0 : roll_dir ≠ DIRECTION_LEFT) (h1 : roll_dir ≠ DIRECTION_RIGHT) :
    matrix_rotate_buffer roll_dir buf = buf := by
  unfold matrix_rotate_buffer
  rw [if_neg h0, if_neg h1]

/-- Witness for C10: rotating with DIRECTION_UP is a no-op on buf0. -/
theorem rotate_unknown_direction_noop_w :
    matrix_rotate_buffer DIRECTION_UP buf0 = buf0 :=
  rotate_unknown_direction_noop DIRECTION_UP buf0 (by decide) (by decide)

/-- Claim C9: matrix_shiftin_chr called with bit_index < 0 or bit_index > 7
returns immediately (before any buffer shift) and leaves every byte of the
buffer unchanged. -/
theorem shiftin_bad_bit_index_noop (font : Font) (c bit_index shift_dir : Int)
    (buf : Buffer) (h : bit_index < 0 ∨ bit_index > 7) :
    matrix_shiftin_chr font c bit_index shift_dir buf = buf := by
  unfold matrix_shiftin_chr
  rw [if_pos h]

/-- Witness for C9: bit index -1 leaves buf0 unchanged. -/
theorem shiftin_bad_bit_index_noop_w :
    matrix_shiftin_chr font0 65 (-1) DIRECTION_LEFT buf0 = buf0 :=
  shiftin_bad_bit_index_noop font0 65 (-1) DIRECTION_LEFT buf0 (Or.inl (by decide))

/-- Claim C7: CENTER alignment in matrix_draw_text computes, for every
nonnegative character count, start column (COLUMNS/2) - (count*FONT_PITCH)/2
and start index 0 when count <= MAX_CHARS, and start column 0 with start
index (count - MAX_CHARS)/2 when count > MAX_CHARS (floor division; on
these nonnegative operands C truncation and floor coincide). -/
theorem center_alignment_layout (count : Int) (h : 0 ≤ count) :
    dt_layout count DT_ALIGN_CENTER =
      if count ≤ (MATRIX_MAX_CHRS : Int) then
        (((MATRIX_COLUMNS : Int) / 2) - count * (FONT_PITCH : Int) / 2, 0)
      else (0, (count - (MATRIX_MAX_CHRS : Int)) / 2) := by
  unfold dt_layout
  rw [if_pos rfl]
  by_cases hc : count ≤ (24 : Int)
  · rw [if_pos hc, if_pos (show count ≤ ((MATRIX_MAX_CHRS : Nat) : Int) from hc),
      Int.tdiv_eq_ediv (by positivity) (by norm_num)]
    norm_num [MATRIX_COLUMNS, FONT_PITCH]
  · rw [if_neg hc, if_neg (show ¬(count ≤ ((MATRIX_MAX_CHRS : Nat) : Int)) from hc),
      Int.tdiv_eq_ediv (by omega) (by norm_num)]
    norm_num [MATRIX_MAX_CHRS, MATRIX_COLUMNS, FONT_PITCH]

/-- Witness for C7: count = 5 gives start column 60 - 12 = 48 ((5*5)/2
floors to 12) and start index 0. -/
theorem center_alignment_layout_w :
    dt_layout 5 DT_ALIGN_CENTER = (48, 0) := by
  have h := center_alignment_layout 5 (by norm_num)
  rw [h]
  norm_num [MATRIX_MAX_CHRS, MATRIX_COLUMNS, FONT_PITCH]

/-- Claim C3: start_animation with an empty string (strlen = 0) leaves
msg_length = 0, does not modify any byte of the frame buffer, and arms
neither anim_prev_millis nor delay_prev_millis. -/
theorem start_empty_string_noop (routine : Int) (speed pause : Nat)
    (msg : List Int) (now : Nat) (s : EngineState) (h : strlen msg = 0) :
    (start_animation routine speed pause msg now s).ctx.msg_length = 0 ∧
    (start_animation routine speed pause msg now s).display_buffer = s.display_buffer ∧
    (start_animation routine speed pause msg now s).ctx.anim_prev_millis = s.ctx.anim_prev_millis ∧
    (start_animation routine speed pause msg now s).ctx.delay_prev_millis = s.ctx.delay_prev_millis := by
  have h0 : strlen msg % 65536 = 0 := by omega
  rw [start_animation_skip routine speed pause msg now s h0]
  exact ⟨h0, rfl, rfl, rfl⟩

/-- Witness for C3: starting with the empty message on initState. -/
theorem start_empty_string_noop_w :
    (start_animation 7 5 20 [] 123 initState).ctx.msg_length = 0 ∧
    (start_animation 7 5 20 [] 123 initState).display_buffer = initState.display_buffer ∧
    (start_animation 7 5 20 [] 123 initState).ctx.anim_prev_millis = initState.ctx.anim_prev_millis ∧
    (start_animation 7 5 20 [] 123 initState).ctx.delay_prev_millis = initState.ctx.delay_prev_millis :=
  start_empty_string_noop 7 5 20 [] 123 initState (by decide)

/-- Claim C8: start_animation itself clears the shared completion flag
fetch_next_msg when the message is non-empty, and leaves it unchanged when
the message is empty.  (Real messages are far shorter than 2^16 bytes,
hence the width hypothesis.) -/
theorem start_completion_flag_contract (routine : Int) (speed pause : Nat)
    (msg : List Int) (now : Nat) (s : EngineState) (hbound : strlen msg < 65536) :
    (strlen msg ≠ 0 →
      (start_animation routine speed pause msg now s).fetch_next_msg = false) ∧
    (strlen msg = 0 →
      (start_animation routine speed pause msg now s).fetch_next_msg = s.fetch_next_msg) := by
  constructor
  · intro h
    rw [start_animation_armed routine speed pause msg now s (by omega)]
  · intro h
    rw [start_animation_skip routine speed pause msg now s (by omega)]

/-- Witness for C8: a one-character message clears the flag (initState has
it set), and the empty message leaves it set. -/
theorem start_completion_flag_contract_w :
    (start_animation 0 5 20 [72] 0 initState).fetch_next_msg = false ∧
    (start_animation 0 5 20 [] 0 initState).fetch_next_msg = initState.fetch_next_msg :=
  ⟨(start_completion_flag_contract 0 5 20 [72] 0 initState (by decide)).1 (by decide),
   (start_completion_flag_contract 0 5 20 [] 0 initState (by decide)).2 (by decide)⟩

/-- A prior engine state whose scratch integers are non-zero (as left
behind by an earlier routine). -/
def sPrev : EngineState :=
  { initState with ctx := { initState.ctx with tmp_1 := 7, tmp_2 := 9 } }

/-- Claim C2 counterexample: start_animation with a non-empty message does
NOT reset the general-purpose scratch integers - starting from a state
with tmp_1 = 7 and tmp_2 = 9 they keep exactly those values, so the
context is not fully reset as the claim states. -/
theorem start_reset_cex :
    (start_animation 0 5 20 [72] 0 sPrev).ctx.tmp_1 = 7 ∧
    (start_animation 0 5 20 [72] 0 sPrev).ctx.tmp_2 = 9 ∧
    ¬((start_animation 0 5 20 [72] 0 sPrev).ctx.tmp_1 = 0 ∧
      (start_animation 0 5 20 [72] 0 sPrev).ctx.tmp_2 = 0) := by
  decide

/-- Claim C2 (amended): start_animation with a non-empty message resets
the sub-state counter to 0, resets anim_prev_millis to 0, sets
delay_prev_millis to the current millisecond clock and clears
fetch_next_msg, and records routine/speed/pause/message - but it leaves
the two scratch integers tmp_1 and tmp_2 unchanged (each routine
re-initialises them on its first tick). -/
theorem start_reset_amended (routine : Int) (speed pause : Nat) (msg : List Int)
    (now : Nat) (s : EngineState) (h : strlen msg ≠ 0) (hbound : strlen msg < 65536) :
    (start_animation routine speed pause msg now s).ctx.state = 0 ∧
    (start_animation routine speed pause msg now s).ctx.anim_prev_millis = 0 ∧
    (start_animation routine speed pause msg now s).ctx.delay_prev_millis = now % 4294967296 ∧
    (start_animation routine speed pause msg now s).ctx.tmp_1 = s.ctx.tmp_1 ∧
    (start_animation routine speed pause msg now s).ctx.tmp_2 = s.ctx.tmp_2 ∧
    (start_animation routine speed pause msg now s).ctx.routine = toU16 routine ∧
    (start_animation routine speed pause msg now s).ctx.animation_speed = speed ∧
    (start_animation routine speed pause msg now s).ctx.interval = (1000 * pause) % 65536 ∧
    (start_animation routine speed pause msg now s).ctx.msg = msg ∧
    (start_animation routine speed pause msg now s).ctx.msg_length = strlen msg % 65536 ∧
    (start_animation routine speed pause msg now s).fetch_next_msg = false := by
  rw [start_animation_armed routine speed pause msg now s (by omega)]
  exact ⟨rfl, rfl, rfl, rfl, rfl, rfl, rfl, rfl, rfl, rfl, rfl⟩

/-- Witness for C2 (amended): applied to sPrev with message "H" at
now = 42. -/
theorem start_reset_amended_w :
    (start_animation 0 5 20 [72] 42 sPrev).ctx.state = 0 ∧
    (start_animation 0 5 20 [72] 42 sPrev).ctx.anim_prev_millis = 0 ∧
    (start_animation 0 5 20 [72] 42 sPrev).ctx.delay_prev_millis = 42 % 4294967296 ∧
    (start_animation 0 5 20 [72] 42 sPrev).ctx.tmp_1 = sPrev.ctx.tmp_1 ∧
    (start_animation 0 5 20 [72] 42 sPrev).ctx.tmp_2 = sPrev.ctx.tmp_2 ∧
    (start_animation 0 5 20 [72] 42 sPrev).ctx.routine = toU16 0 ∧
    (start_animation 0 5 20 [72] 42 sPrev).ctx.animation_speed = 5 ∧
    (start_animation 0 5 20 [72] 42 sPrev).ctx.interval = (1000 * 20) % 65536 ∧
    (start_animation 0 5 20 [72] 42 sPrev).ctx.msg = [72] ∧
    (start_animation 0 5 20 [72] 42 sPrev).ctx.msg_length = strlen [72] % 65536 ∧
    (start_animation 0 5 20 [72] 42 sPrev).fetch_next_msg = false :=
  start_reset_amended 0 5 20 [72] 42 sPrev (by decide) (by decide)

/-- Claim C6: while routine 19 (pac-man) is active, do_animation never
raises the completion flag: the flag is returned unchanged, the routine
afterwards is still 19 or has become 0 (smooth scroll), and when it has
become 0 the buffer was cleared in the same call. -/
theorem pacman_no_completion (font : Font) (lm lm2 rc rr rt : Nat)
    (s : EngineState) (h : s.ctx.routine = 19) :
    (do_animation font lm lm2 rc rr rt s).fetch_next_msg = s.fetch_next_msg ∧
    ((do_animation font lm lm2 rc rr rt s).ctx.routine = 19 ∨
      (do_animation font lm lm2 rc rr rt s).ctx.routine = 0) ∧
    ((do_animation font lm lm2 rc rr rt s).ctx.routine = 0 →
      (do_animation font lm lm2 rc rr rt s).display_buffer = matrix_fill_buffer 0x00) := by
  rw [do_animation_pacman font lm lm2 rc rr rt s h]
  unfold anim_pacman
  split_ifs <;> refine ⟨rfl, ?_, ?_⟩ <;> simp [h]

/-- An engine state in which the pac-man routine is active. -/
def sPac : EngineState := { initState with ctx := { initState.ctx with routine := 19 } }

/-- Witness for C6: one pac-man tick on a concrete state. -/
theorem pacman_no_completion_w :
    (do_animation font0 1001 1001 0 0 0 sPac).fetch_next_msg = sPac.fetch_next_msg ∧
    ((do_animation font0 1001 1001 0 0 0 sPac).ctx.routine = 19 ∨
      (do_animation font0 1001 1001 0 0 0 sPac).ctx.routine = 0) ∧
    ((do_animation font0 1001 1001 0 0 0 sPac).ctx.routine = 0 →
      (do_animation font0 1001 1001 0 0 0 sPac).display_buffer = matrix_fill_buffer 0x00) :=
  pacman_no_completion font0 1001 1001 0 0 0 sPac rfl

/-- Claim C1 counterexample: with the one-character message "A" (L = 1),
after L*FONT_PITCH + COLUMNS = 125 qualifying shift steps (the argument
below counts the initialisation call too) the completion flag is still
false, contradicting the claim that it is set after exactly that many
steps. -/
theorem scroll_completion_cex :
    (scroll_exec font0 5 20 [65] 0 initState (FONT_PITCH * 1 + MATRIX_COLUMNS + 1)).fetch_next_msg = false := by
  have h := (scroll_run_inv font0 [65] 5 20 0 initState 1 (by decide) (by norm_num)
    (by norm_num) (by norm_num) 125 (by norm_num)).2.2.2.2.2.2
  norm_num at h
  exact h

/-- Claim C1 (amended): for routine 0 started with a non-empty message of
length L (L <= 32000 so the 16-bit counters cannot wrap; tick spacing
greater than the speed threshold, i.e. speed <= 98), the completion flag
is set after exactly L*FONT_PITCH + COLUMNS + 1 shift-equivalent steps -
the post-increment comparison `state++ >= msg_length + MATRIX_COLUMNS`
fires one whole-buffer shift later than the claimed L*FONT_PITCH + COLUMNS
- and not before.  Step k is the (k+1)-st call of do_animation; the first
call only initialises and shifts nothing. -/
theorem scroll_completion_amended (font : Font) (speed pause now : Nat)
    (msg : List Int) (L : Nat) (hL : strlen msg = L) (h1 : 1 ≤ L)
    (h2 : L ≤ 32000) (hs : speed ≤ 98) (s : EngineState) :
    (∀ k : Nat, k ≤ FONT_PITCH * L + MATRIX_COLUMNS →
      (scroll_exec font speed pause msg now s (k + 1)).fetch_next_msg = false) ∧
    (scroll_exec font speed pause msg now s (FONT_PITCH * L + MATRIX_COLUMNS + 1 + 1)).fetch_next_msg = true := by
  constructor
  · intro k hk
    have hk5 : k ≤ 5 * L + 120 := hk
    have h := (scroll_run_inv font msg speed pause now s L hL h1 h2 hs k (by omega)).2.2.2.2.2.2
    rw [h, decide_eq_false_iff_not]
    omega
  · have h := (scroll_run_inv font msg speed pause now s L hL h1 h2 hs (5 * L + 121) (le_refl _)).2.2.2.2.2.2
    rw [show decide (5 * L + 121 ≤ 5 * L + 121) = true from by simp] at h
    exact h

/-- Witness for C1 (amended): message "HI" (L = 2) - the flag is still
false after the initialisation call, and set after 5*2 + 121 steps. -/
theorem scroll_completion_amended_w :
    (scroll_exec font0 5 20 [72, 73] 0 initState (0 + 1)).fetch_next_msg = false ∧
    (scroll_exec font0 5 20 [72, 73] 0 initState (FONT_PITCH * 2 + MATRIX_COLUMNS + 1 + 1)).fetch_next_msg = true := by
  have h := scroll_completion_amended font0 5 20 0 [72, 73] 2 (by decide) (by norm_num)
    (by norm_num) (by norm_num) initState
  exact ⟨h.1 0 (by norm_num), h.2⟩

end MessageBoard
